import Mathlib

/-!
Verification of the session facade layer in
`src/packages/realm/src/app-services/SyncSession.ts` of realm-js.

The file embeds the translator functions, the listener-registry
operations, the deadline-bound wait and the facade accessors, and proves
the spec claims about them. Definitions translated directly from the
source carry a `From src` comment; collaborators whose code is not under
`src/` (the generic `Listeners` class, `TimeoutPromise`, and the binding
enum declarations) are modelled from the spec and say so in their
doc comments.
-/

namespace RealmJS

/-- From src (enum ConnectionState): public connection states exposed by
the facade. -/
inductive ConnectionState
  | disconnected
  | connecting
  | connected
deriving DecidableEq, Repr

/-- From src (enum SessionState): public session states exposed by the
facade, including the declared but possibly unreachable invalid value. -/
inductive SessionState
  | invalid
  | active
  | inactive
deriving DecidableEq, Repr

/-- From src (enum ProgressDirection): a TS string enum; its runtime
values are the strings below, so the direction domain is String. -/
def ProgressDirection.Download : String := "download"

/-- From src (enum ProgressDirection): the upload member. -/
def ProgressDirection.Upload : String := "upload"

/-- Modelled from the spec: the engine-side progress direction enum
`binding.ProgressDirection`, declared outside src; the spec names the
two directions download and upload. -/
inductive BindingProgressDirection
  | download
  | upload
deriving DecidableEq, Repr

/-- Modelled from the spec: `binding.SyncSessionConnectionState` is a
numeric engine enum declared outside src; engine values arrive as
numeric codes, so the domain is Nat with three known codes. -/
def BindingConnState.Disconnected : Nat := 0

/-- Modelled from the spec: the connecting code of the engine
connection-state enum. -/
def BindingConnState.Connecting : Nat := 1

/-- Modelled from the spec: the connected code of the engine
connection-state enum. -/
def BindingConnState.Connected : Nat := 2

/-- Modelled from the spec: `binding.SyncSessionState` is declared
outside src; the spec enumerates the engine session states Active,
Inactive, Invalid and the transitional Dying state. -/
inductive BindingSyncSessionState
  | active
  | dying
  | inactive
  | invalid
deriving DecidableEq, Repr

/-- From src (toBindingDirection): maps the public direction strings to
the engine direction and throws on anything else. -/
def toBindingDirection (direction : String) : Except String BindingProgressDirection :=
  if direction = ProgressDirection.Download then
    Except.ok BindingProgressDirection.download
  else if direction = ProgressDirection.Upload then
    Except.ok BindingProgressDirection.upload
  else
    Except.error ("Unexpected direction: " ++ direction)

/-- From src (fromBindingConnectionState): maps the three known engine
connection-state codes to the public enum and throws on anything else. -/
def fromBindingConnectionState (state : Nat) : Except String ConnectionState :=
  if state = BindingConnState.Connected then
    Except.ok ConnectionState.connected
  else if state = BindingConnState.Connecting then
    Except.ok ConnectionState.connecting
  else if state = BindingConnState.Disconnected then
    Except.ok ConnectionState.disconnected
  else
    Except.error ("Unexpected state: " ++ toString state)

/-- From src (fromBindingSessionState): collapses every engine session
state other than Inactive to the public Active value. -/
def fromBindingSessionState (state : BindingSyncSessionState) : SessionState :=
  if state = BindingSyncSessionState.inactive then
    SessionState.inactive
  else
    SessionState.active

/-- From src (get state): the public state getter is the translated read
of the engine session state. -/
def stateGetter (internalState : BindingSyncSessionState) : SessionState :=
  fromBindingSessionState internalState

/-- From src (isConnected): true when the engine connection state is
Connected and the engine session state is Active or Dying. -/
def isConnected (connectionState : Nat) (state : BindingSyncSessionState) : Bool :=
  (connectionState == BindingConnState.Connected) &&
    ((state == BindingSyncSessionState.active) || (state == BindingSyncSessionState.dying))

/-- From src (get url): the engine field fullRealmUrl is an optional
string; the getter returns it when it is JS-truthy (present and
nonempty) and throws otherwise. -/
def urlGetter : Option String → Except String String
  | none => Except.error "Unable to determine URL"
  | some url => if url = "" then Except.error "Unable to determine URL" else Except.ok url

/-- From src (get config): the scoping strategy returned by the config
accessor is exactly one of a flexible-sync marker or a decoded
partition value. -/
inductive SyncScope (P : Type)
  | flexible
  | partition (value : P)

/-- From src: the engine config fields the accessor destructures. -/
structure BindingSyncConfig where
  partitionValue : String
  flxSyncRequested : Bool

/-- From src (get config): when flexible sync is requested the accessor
returns the flexible marker; otherwise it decodes the stored partition
value with the extended-JSON parser (abstracted as `parse`, an external
library), propagating any decode failure. -/
def configGetter {P : Type} (parse : String → Except String P)
    (userId : Nat) (cfg : BindingSyncConfig) : Except String (Nat × SyncScope P) :=
  if cfg.flxSyncRequested then
    Except.ok (userId, SyncScope.flexible)
  else
    match parse cfg.partitionValue with
    | Except.ok v => Except.ok (userId, SyncScope.partition v)
    | Except.error e => Except.error e

/-- From src (type ListenerToken): the engine handle identity together
with the opaque registration token (a bigint, embedded as Nat). -/
structure ListenerToken where
  internal : Nat
  token : Nat
deriving DecidableEq, Repr

/-- Modelled from the spec: the failure of re-adding a live callback
(section 7, DuplicateRegistration), raised because both registries are
constructed with throwOnReAdd set. -/
inductive RegistryError
  | duplicateRegistration
deriving DecidableEq, Repr

/-- Modelled from the spec: the generic `Listeners` class is declared
outside src; its registry state (section 4.2) maps callback identities
to tokens, here a list of pairs. A callback has a live entry when some
pair carries it. -/
def Listeners.hasEntry {C T : Type} [DecidableEq C]
    (entries : List (C × T)) (cb : C) : Bool :=
  entries.any fun e => decide (e.1 = cb)

/-- Modelled from the spec: `Listeners.add` (section 4.2) rejects a
callback that already has a live entry with DuplicateRegistration,
leaving the entries unchanged; otherwise it records the token returned
by the register primitive keyed by the callback. -/
def Listeners.add {C T : Type} [DecidableEq C]
    (entries : List (C × T)) (cb : C) (token : T) :
    Except RegistryError Unit × List (C × T) :=
  if Listeners.hasEntry entries cb then
    (Except.error RegistryError.duplicateRegistration, entries)
  else
    (Except.ok (), entries ++ [(cb, token)])

/-- Modelled from the spec: the state step of `Listeners.remove`
(section 4.2); with no live entry it is a no-op returning none, else it
deletes the entry and returns the stored token for the unregister
primitive. -/
def Listeners.removeEntry {C T : Type} [DecidableEq C]
    (entries : List (C × T)) (cb : C) : List (C × T) × Option T :=
  match entries.find? (fun e => decide (e.1 = cb)) with
  | none => (entries, none)
  | some e => (entries.filter (fun x => decide (x.1 ≠ cb)), some e.2)

/-- The engine unregister primitives a removal can invoke, recorded as
explicit calls so we can observe which one the code uses. -/
inductive EngineCall
  | unregisterProgressNotifier (token : Nat)
  | unregisterConnectionChangeCallback (token : Nat)
deriving DecidableEq, Repr

/-- From src (PROGRESS_LISTENERS unregister): invokes
internal.unregisterProgressNotifier with the stored token. -/
def progressUnregister (t : ListenerToken) : EngineCall :=
  EngineCall.unregisterProgressNotifier t.token

/-- From src (CONNECTION_LISTENERS unregister): the source invokes
internal.unregisterProgressNotifier with the stored token here as well,
not the connection-specific primitive. -/
def connectionUnregister (t : ListenerToken) : EngineCall :=
  EngineCall.unregisterProgressNotifier t.token

/-- From src (removeProgressNotification): delegates to the progress
registry removal; the engine call made, if any, is the unregister step
applied to the stored token. -/
def removeProgressNotificationOp {C : Type} [DecidableEq C]
    (entries : List (C × ListenerToken)) (cb : C) :
    List (C × ListenerToken) × Option EngineCall :=
  ((Listeners.removeEntry entries cb).1,
    (Listeners.removeEntry entries cb).2.map progressUnregister)

/-- From src (removeConnectionNotification): delegates to the connection
registry removal; the engine call made, if any, is the connection
unregister step applied to the stored token. -/
def removeConnectionNotificationOp {C : Type} [DecidableEq C]
    (entries : List (C × ListenerToken)) (cb : C) :
    List (C × ListenerToken) × Option EngineCall :=
  ((Listeners.removeEntry entries cb).1,
    (Listeners.removeEntry entries cb).2.map connectionUnregister)

/-- Modelled from the spec: the outcome of a completion signal once it
settles (section 4.3), success or an underlying engine failure. -/
inductive SignalOutcome
  | success
  | failure (message : String)
deriving DecidableEq, Repr

/-- The settled result of a deadline-bound wait. -/
inductive WaitResult
  | ok
  | err (message : String)
  | timeout (message : String)
  | pending
deriving DecidableEq, Repr

/-- Forwarding a settled signal outcome to the wait result. -/
def SignalOutcome.toResult : SignalOutcome → WaitResult
  | SignalOutcome.success => WaitResult.ok
  | SignalOutcome.failure m => WaitResult.err m

/-- Modelled from the spec: `TimeoutPromise` is declared outside src;
the spec (section 4.3) describes the deadline-bound wait. The signal is
none when it never settles, or some pair of the settle time and the
outcome. With no timeout the result follows the signal alone; with a
timeout, whichever of the signal and the timer settles first determines
the outcome, the single-use latch making the tie go to one of them (here
the signal). -/
def TimeoutPromise (signal : Option (Nat × SignalOutcome))
    (timeoutMs : Option Nat) (message : String) : WaitResult :=
  match timeoutMs with
  | none =>
    match signal with
    | none => WaitResult.pending
    | some s => s.2.toResult
  | some d =>
    match signal with
    | none => WaitResult.timeout message
    | some s => if s.1 ≤ d then s.2.toResult else WaitResult.timeout message

/-- JS string interpolation of the optional timeout argument. -/
def jsNumberToString : Option Nat → String
  | some n => toString n
  | none => "undefined"

/-- From src (downloadAllServerChanges): the timeout message, with the
configured duration interpolated. -/
def downloadMessage (timeoutMs : Option Nat) : String :=
  "Downloading changes did not complete in " ++ jsNumberToString timeoutMs ++ " ms."

/-- From src (uploadAllLocalChanges): the timeout message, with the
configured duration interpolated. -/
def uploadMessage (timeoutMs : Option Nat) : String :=
  "Uploading changes did not complete in " ++ jsNumberToString timeoutMs ++ " ms."

/-- From src (downloadAllServerChanges): wraps the download completion
signal in the deadline-bound wait with the download message. -/
def downloadAllServerChanges (signal : Option (Nat × SignalOutcome))
    (timeoutMs : Option Nat) : WaitResult :=
  TimeoutPromise signal timeoutMs (downloadMessage timeoutMs)

/-- From src (uploadAllLocalChanges): wraps the upload completion signal
in the deadline-bound wait with the upload message. -/
def uploadAllLocalChanges (signal : Option (Nat × SignalOutcome))
    (timeoutMs : Option Nat) : WaitResult :=
  TimeoutPromise signal timeoutMs (uploadMessage timeoutMs)

/-! ## Theorems -/

/-- C4: the session-state translator is total over the engine session
states and maps the engine Inactive state to the public Inactive value
and every other engine session state (including the invalid and the
transitional dying state) to the public Active value. -/
theorem sessionState_translation_lossy (s : BindingSyncSessionState) :
    fromBindingSessionState BindingSyncSessionState.inactive = SessionState.inactive ∧
    (s ≠ BindingSyncSessionState.inactive → fromBindingSessionState s = SessionState.active) := by
  refine ⟨rfl, fun h => ?_⟩
  cases s <;> simp_all [fromBindingSessionState]

/-- Witness for C4 at the engine invalid state. -/
theorem sessionState_translation_lossy_witness :
    fromBindingSessionState BindingSyncSessionState.inactive = SessionState.inactive ∧
    fromBindingSessionState BindingSyncSessionState.invalid = SessionState.active := by
  have h := sessionState_translation_lossy BindingSyncSessionState.invalid
  exact ⟨h.1, h.2 (by decide)⟩

/-- C10: for every engine session state the public state getter returns
Active or Inactive; the declared public Invalid value is unreachable
through the facade. -/
theorem stateGetter_never_invalid (s : BindingSyncSessionState) :
    stateGetter s ≠ SessionState.invalid ∧
    (stateGetter s = SessionState.active ∨ stateGetter s = SessionState.inactive) := by
  cases s <;> simp [stateGetter, fromBindingSessionState]

/-- C5: isConnected is true exactly when the engine connection state is
the Connected code and the engine session state is Active or Dying;
every other combination of a connection code and a session state gives
false. -/
theorem isConnected_truth_table (c : Nat) (s : BindingSyncSessionState) :
    isConnected c s = true ↔
      (c = BindingConnState.Connected ∧
        (s = BindingSyncSessionState.active ∨ s = BindingSyncSessionState.dying)) := by
  cases s <;> simp [isConnected, BindingConnState.Connected]

/-- C6: the connection-state translator maps the three known engine
codes one-to-one onto the public values and fails on every code outside
that set; the direction translator maps each public direction string to
its engine direction and fails on any other string. -/
theorem enum_translation_never_defaults (n : Nat) (s : String) :
    fromBindingConnectionState BindingConnState.Disconnected =
      Except.ok ConnectionState.disconnected ∧
    fromBindingConnectionState BindingConnState.Connecting =
      Except.ok ConnectionState.connecting ∧
    fromBindingConnectionState BindingConnState.Connected =
      Except.ok ConnectionState.connected ∧
    (n ≠ BindingConnState.Disconnected → n ≠ BindingConnState.Connecting →
      n ≠ BindingConnState.Connected →
      fromBindingConnectionState n = Except.error ("Unexpected state: " ++ toString n)) ∧
    toBindingDirection ProgressDirection.Download =
      Except.ok BindingProgressDirection.download ∧
    toBindingDirection ProgressDirection.Upload =
      Except.ok BindingProgressDirection.upload ∧
    (s ≠ ProgressDirection.Download → s ≠ ProgressDirection.Upload →
      toBindingDirection s = Except.error ("Unexpected direction: " ++ s)) := by
  refine ⟨rfl, rfl, rfl, fun h0 h1 h2 => ?_, rfl, rfl, fun hd hu => ?_⟩
  · simp [fromBindingConnectionState, h0, h1, h2]
  · simp [toBindingDirection, hd, hu]

/-- Witness for C6 at the unknown engine code 7 and the unknown
direction string sideways. -/
theorem enum_translation_never_defaults_witness :
    fromBindingConnectionState 7 = Except.error ("Unexpected state: " ++ toString 7) ∧
    toBindingDirection "sideways" = Except.error ("Unexpected direction: " ++ "sideways") := by
  have h := enum_translation_never_defaults 7 "sideways"
  exact ⟨h.2.2.2.1 (by decide) (by decide) (by decide),
    h.2.2.2.2.2.2 (by decide) (by decide)⟩

/-- C8: the url accessor fails whenever the engine reports no resolvable
URL (absent or empty fullRealmUrl), returns the engine URL otherwise,
and a returned URL is never the empty string. -/
theorem url_accessor_unavailable (u : Option String) (s v : String) :
    urlGetter none = Except.error "Unable to determine URL" ∧
    urlGetter (some "") = Except.error "Unable to determine URL" ∧
    (s ≠ "" → urlGetter (some s) = Except.ok s) ∧
    (urlGetter u = Except.ok v → v ≠ "") := by
  refine ⟨rfl, rfl, fun h => by simp [urlGetter, h], fun h => ?_⟩
  match u with
  | none => simp [urlGetter] at h
  | some w =>
    by_cases hw : w = "" <;> simp [urlGetter, hw] at h
    exact h ▸ hw

/-- Witness for C8 at a concrete nonempty URL and the ok case. -/
theorem url_accessor_unavailable_witness :
    urlGetter none = Except.error "Unable to determine URL" ∧
    urlGetter (some "") = Except.error "Unable to determine URL" ∧
    urlGetter (some "realm://host/db") = Except.ok "realm://host/db" ∧
    "realm://host/db" ≠ "" := by
  have h := url_accessor_unavailable (some "realm://host/db") "realm://host/db" "realm://host/db"
  exact ⟨h.1, h.2.1, h.2.2.1 (by decide), h.2.2.2 (h.2.2.1 (by decide))⟩

/-- C3: adding a callback that already has a live entry in a registry
fails with DuplicateRegistration and leaves the entries unchanged; a
successful add makes the callback live, so a second add of the same
callback is the failing case. -/
theorem duplicate_add_rejected {C T : Type} [DecidableEq C]
    (entries entries2 : List (C × T)) (cb : C) (tok tok2 : T)
    (h : Listeners.hasEntry entries cb = true) :
    (Listeners.add entries cb tok).1 = Except.error RegistryError.duplicateRegistration ∧
    (Listeners.add entries cb tok).2 = entries ∧
    (Listeners.hasEntry entries2 cb = false →
      Listeners.hasEntry (Listeners.add entries2 cb tok2).2 cb = true) := by
  refine ⟨by simp [Listeners.add, h], by simp [Listeners.add, h], fun h2 => ?_⟩
  have h2' := h2
  simp only [Listeners.hasEntry] at h2'
  simp only [Listeners.add, Listeners.hasEntry, h2', if_false, Bool.false_eq_true]
  simp

/-- Witness for C3: a concrete registry where callback 1 is live, so a
second add of callback 1 fails and changes nothing, and adding to an
empty registry makes the callback live. -/
theorem duplicate_add_rejected_witness :
    (Listeners.add [((1 : Nat), ListenerToken.mk 0 5)] 1 (ListenerToken.mk 0 9)).1 =
      Except.error RegistryError.duplicateRegistration ∧
    (Listeners.add [((1 : Nat), ListenerToken.mk 0 5)] 1 (ListenerToken.mk 0 9)).2 =
      [((1 : Nat), ListenerToken.mk 0 5)] ∧
    Listeners.hasEntry (Listeners.add ([] : List (Nat × ListenerToken)) 1
      (ListenerToken.mk 0 9)).2 1 = true := by
  obtain ⟨h1, h2, h3⟩ := duplicate_add_rejected [((1 : Nat), ListenerToken.mk 0 5)]
    ([] : List (Nat × ListenerToken)) 1 (ListenerToken.mk 0 9) (ListenerToken.mk 0 9)
    (by decide)
  exact ⟨h1, h2, h3 (by decide)⟩

/-- C7: removing a callback with no live entry is a no-op for both
removal operations: the entries are unchanged and no engine unregister
call is made. -/
theorem remove_missing_noop {C : Type} [DecidableEq C]
    (entries : List (C × ListenerToken)) (cb : C)
    (h : Listeners.hasEntry entries cb = false) :
    removeProgressNotificationOp entries cb = (entries, none) ∧
    removeConnectionNotificationOp entries cb = (entries, none) := by
  have hf : entries.find? (fun e => decide (e.1 = cb)) = none := by
    rw [List.find?_eq_none]
    intro x hx
    simp only [Listeners.hasEntry, List.any_eq_false] at h
    simpa using h x hx
  constructor <;>
    simp [removeProgressNotificationOp, removeConnectionNotificationOp,
      Listeners.removeEntry, hf]

/-- Witness for C7 at a concrete registry that does not hold callback 1. -/
theorem remove_missing_noop_witness :
    removeProgressNotificationOp [((2 : Nat), ListenerToken.mk 0 5)] 1 =
      ([((2 : Nat), ListenerToken.mk 0 5)], none) ∧
    removeConnectionNotificationOp [((2 : Nat), ListenerToken.mk 0 5)] 1 =
      ([((2 : Nat), ListenerToken.mk 0 5)], none) :=
  remove_missing_noop [((2 : Nat), ListenerToken.mk 0 5)] 1 (by decide)

/-- C1 (code behaviour at the failing input): for a connection callback
with a live registry entry, the removal step invokes the engine
unregisterProgressNotifier primitive with the stored token, and never
the connection-specific unregisterConnectionChangeCallback primitive —
the code contradicts the claim. -/
theorem connection_unregister_uses_progress_primitive (cb : Nat) (tok : ListenerToken) :
    (removeConnectionNotificationOp [(cb, tok)] cb).2 =
      some (EngineCall.unregisterProgressNotifier tok.token) ∧
    ∀ u : Nat, (removeConnectionNotificationOp [(cb, tok)] cb).2 ≠
      some (EngineCall.unregisterConnectionChangeCallback u) := by
  constructor
  · simp [removeConnectionNotificationOp, Listeners.removeEntry, connectionUnregister]
  · intro u
    simp [removeConnectionNotificationOp, Listeners.removeEntry, connectionUnregister]

/-- C2: with no timeout the wait result always matches the signal
outcome; with a timeout of d, a signal that never settles or settles
after d gives a Timeout whose message embeds d, and a signal that
settles by d gives the signal outcome; for both the download and the
upload operation. -/
theorem deadline_bound_wait (d t : Nat) (o : SignalOutcome) :
    downloadAllServerChanges (some (t, o)) none = o.toResult ∧
    uploadAllLocalChanges (some (t, o)) none = o.toResult ∧
    downloadAllServerChanges none (some d) = WaitResult.timeout (downloadMessage (some d)) ∧
    uploadAllLocalChanges none (some d) = WaitResult.timeout (uploadMessage (some d)) ∧
    (∃ pre post, downloadMessage (some d) = pre ++ toString d ++ post) ∧
    (∃ pre post, uploadMessage (some d) = pre ++ toString d ++ post) ∧
    (d < t → downloadAllServerChanges (some (t, o)) (some d) =
      WaitResult.timeout (downloadMessage (some d))) ∧
    (d < t → uploadAllLocalChanges (some (t, o)) (some d) =
      WaitResult.timeout (uploadMessage (some d))) ∧
    (t ≤ d → downloadAllServerChanges (some (t, o)) (some d) = o.toResult) ∧
    (t ≤ d → uploadAllLocalChanges (some (t, o)) (some d) = o.toResult) := by
  refine ⟨rfl, rfl, rfl, rfl,
    ⟨"Downloading changes did not complete in ", " ms.", rfl⟩,
    ⟨"Uploading changes did not complete in ", " ms.", rfl⟩,
    fun h => ?_, fun h => ?_, fun h => ?_, fun h => ?_⟩
  · simp [downloadAllServerChanges, TimeoutPromise, Nat.not_le.mpr h]
  · simp [uploadAllLocalChanges, TimeoutPromise, Nat.not_le.mpr h]
  · simp [downloadAllServerChanges, TimeoutPromise, h]
  · simp [uploadAllLocalChanges, TimeoutPromise, h]

/-- Witness for C2: the spec scenario — a download wait of 50 against a
never-settling signal times out with a message embedding 50 — plus a
signal settling before the deadline, one settling after it, and an
untimed upload wait forwarding an engine failure. -/
theorem deadline_bound_wait_witness :
    downloadAllServerChanges none (some 50) = WaitResult.timeout (downloadMessage (some 50)) ∧
    (∃ pre post, downloadMessage (some 50) = pre ++ toString 50 ++ post) ∧
    downloadAllServerChanges (some (10, SignalOutcome.success)) (some 50) = WaitResult.ok ∧
    downloadAllServerChanges (some (99, SignalOutcome.success)) (some 50) =
      WaitResult.timeout (downloadMessage (some 50)) ∧
    uploadAllLocalChanges (some (10, SignalOutcome.failure "boom")) none =
      WaitResult.err "boom" := by
  obtain ⟨a1, a2, a3, a4, a5, a6, a7, a8, a9, a10⟩ :=
    deadline_bound_wait 50 10 SignalOutcome.success
  obtain ⟨b1, b2, b3, b4, b5, b6, b7, b8, b9, b10⟩ :=
    deadline_bound_wait 50 99 SignalOutcome.success
  obtain ⟨c1, c2, c3, c4, c5, c6, c7, c8, c9, c10⟩ :=
    deadline_bound_wait 50 10 (SignalOutcome.failure "boom")
  exact ⟨a3, a5, a9 (by decide), b7 (by decide), c2⟩

/-- C9: the config accessor returns the resolved user with exactly one
scoping strategy — the flexible marker when flexible sync is requested
(no partition value), otherwise the decoded partition value — and a
decode failure of the stored partition value propagates to the caller. -/
theorem config_accessor_scoping {P : Type} (parse : String → Except String P)
    (userId : Nat) (pv : String) (v : P) (e : String) :
    configGetter parse userId (BindingSyncConfig.mk pv true) =
      Except.ok (userId, SyncScope.flexible) ∧
    (parse pv = Except.ok v →
      configGetter parse userId (BindingSyncConfig.mk pv false) =
        Except.ok (userId, SyncScope.partition v)) ∧
    (parse pv = Except.error e →
      configGetter parse userId (BindingSyncConfig.mk pv false) = Except.error e) := by
  refine ⟨rfl, fun h => ?_, fun h => ?_⟩ <;> simp [configGetter, h]

/-- Witness for C9 with a concrete decoder that accepts the string 42
and rejects everything else. -/
theorem config_accessor_scoping_witness :
    configGetter (fun s => if s = "42" then Except.ok (42 : Nat) else Except.error "bad EJSON")
      0 (BindingSyncConfig.mk "42" true) = Except.ok (0, SyncScope.flexible) ∧
    configGetter (fun s => if s = "42" then Except.ok (42 : Nat) else Except.error "bad EJSON")
      0 (BindingSyncConfig.mk "42" false) = Except.ok (0, SyncScope.partition 42) ∧
    configGetter (fun s => if s = "42" then Except.ok (42 : Nat) else Except.error "bad EJSON")
      0 (BindingSyncConfig.mk "oops" false) = Except.error "bad EJSON" := by
  obtain ⟨w1, w2, w3⟩ := config_accessor_scoping
    (fun s => if s = "42" then Except.ok (42 : Nat) else Except.error "bad EJSON")
    0 "42" 42 "bad EJSON"
  obtain ⟨x1, x2, x3⟩ := config_accessor_scoping
    (fun s => if s = "42" then Except.ok (42 : Nat) else Except.error "bad EJSON")
    0 "oops" 42 "bad EJSON"
  exact ⟨w1, w2 (by simp), x3 (by simp)⟩

end RealmJS
